import Mathlib

/-!
Verification of the knowledge-assistant retrieval and answer-synthesis core.

The definitions below are a shallow embedding of the Python source:
`src/tools/lancedb_manager.py` (hierarchical store, index manager, retrieval),
`src/tools/knowledge_base.py` (embedding provider wrapper, store construction)
and `src/tools/qa_processor.py` (answer synthesizer).  Rows are Lean
structures, tables are lists of rows, Python floats are modelled as `Rat`,
and the external providers (embedding API, generative API, storage engine
ranking) are explicit function parameters.  Fallible operations return
`Except`.
-/

namespace KA

/-! ## Generic helpers

`pySorted` models Python's stable ascending `sorted(xs, key=...)`:
an element is inserted before the first element whose key is `≥` its own,
so equal keys keep their original relative order. -/

def insertByRat (key : α → Rat) (a : α) : List α → List α
  | [] => [a]
  | b :: bs => if key a ≤ key b then a :: b :: bs else b :: insertByRat key a bs

def pySorted (key : α → Rat) : List α → List α
  | [] => []
  | a :: as => insertByRat key a (pySorted key as)

/-! ## Data model

Row shapes of the three tables, following the `SCHEMAS` dict of
`lancedb_manager.py` (lines 23-46).  `description` columns are `Option String`
because `update_category` can store a missing (null) value there; the entry
`tags` column is kept in its serialized `tags_json` form, exactly as stored. -/

structure Category where
  id : String
  name : String
  description : Option String
deriving Repr, DecidableEq

structure Topic where
  id : String
  category_id : String
  name : String
  description : Option String
deriving Repr, DecidableEq

structure Entry where
  id : String
  topic_id : String
  title : String
  content : String
  tags_json : String
  created_at : String
  updated_at : String
  vector : List Rat
  source : String
deriving Repr, DecidableEq

/-- The store: one list of rows per table. -/
structure DB where
  categories : List Category
  topics : List Topic
  entries : List Entry
deriving Repr, DecidableEq

/-! ## IndexManager: `create_vector_index` (lancedb_manager.py lines 124-169) -/

structure IndexParams where
  numPartitions : Nat
  numSubVectors : Nat
  distanceType : String
deriving Repr, DecidableEq

/-- Shallow embedding of `LanceDBManager.create_vector_index`.
`tableExists` / `columnExists` model the two early-exit checks (lines 127-136);
`tableSize` is `table.count_rows()` and `dimensions` is
`self.embeddings.dimensions`.  Python's `int(table_size ** 0.5)` is modelled
as `Nat.sqrt` (they agree on every realistic row count).  `none` models the
`return False` paths where no index is built; `some p` models building an
index with parameters `p` (lines 144-166). -/
def create_vector_index (tableExists : Bool) (columnExists : Bool)
    (tableSize : Nat) (dimensions : Nat) : Option IndexParams :=
  if !tableExists then none
  else if !columnExists then none
  else if tableSize < 5 then none
  else
    if dimensions > 1000 then
      some { numPartitions := max (Nat.sqrt tableSize) 2
             numSubVectors := min (max (dimensions / 100) 4) 96
             distanceType := "cosine" }
    else
      some { numPartitions := max (Nat.sqrt tableSize) 2
             numSubVectors := max (dimensions / 8) 4
             distanceType := "cosine" }

/-- The spec's index-parameter policy, written from the spec's own words:
`numPartitions = max(floor(sqrt(rowCount)), 2)`. -/
def specNumPartitions (rowCount : Nat) : Nat := max (Nat.sqrt rowCount) 2

/-- The spec's index-parameter policy for `numSubVectors`: for width > 1000,
`clamp(floor(width/100), 4, 96)`; otherwise `max(floor(width/8), 4)`. -/
def specNumSubVectors (w : Nat) : Nat :=
  if w > 1000 then min (max (w / 100) 4) 96 else max (w / 8) 4

/-! ## HierarchicalStore: update and cascade-delete operations -/

/-- Python truthiness update `new if new else cur` for a string column:
the new value is taken only when it is present and non-empty. -/
def pyOr (new : Option String) (cur : String) : String :=
  match new with
  | some s => if s = "" then cur else s
  | none => cur

/-- Python truthiness update `new if new else cur` when the current column
value may itself be missing (null). -/
def pyOrOpt (new : Option String) (cur : Option String) : Option String :=
  match new with
  | some s => if s = "" then cur else some s
  | none => cur

/-- Python update `new if new is not None else cur`. -/
def pyOrIsNone (new : Option String) (cur : String) : String :=
  match new with
  | some s => s
  | none => cur

/-- Shallow embedding of `LanceDBManager.update_category`
(lancedb_manager.py lines 243-263).  The row with the given id is looked up
(`ValueError` when absent), a replacement row is assembled, and the old row
is deleted and the new one added.  NOTE: the source passes the raw
`description` argument into the new row (line 256) — unlike `updated_name`,
it is not defaulted from the current row. -/
def update_category (db : DB) (category_id : String)
    (name : Option String) (description : Option String) : Except String DB :=
  match db.categories.find? (fun c => c.id == category_id) with
  | none => .error ("Category with id " ++ category_id ++ " not found")
  | some current =>
    let updated_name := pyOr name current.name
    let newRow : Category :=
      { id := category_id, name := updated_name, description := description }
    .ok { db with
          categories :=
            db.categories.filter (fun c => c.id != category_id) ++ [newRow] }

/-- Shallow embedding of `LanceDBManager.update_topic`
(lancedb_manager.py lines 333-356).  Both `name` and `description` are
defaulted from the current row by Python truthiness; `category_id` is
preserved. -/
def update_topic (db : DB) (topic_id : String)
    (name : Option String) (description : Option String) : Except String DB :=
  match db.topics.find? (fun t => t.id == topic_id) with
  | none => .error ("Topic with id " ++ topic_id ++ " not found")
  | some current =>
    let updated_name := pyOr name current.name
    let updated_description := pyOrOpt description current.description
    let newRow : Topic :=
      { id := topic_id, category_id := current.category_id,
        name := updated_name, description := updated_description }
    .ok { db with
          topics := db.topics.filter (fun t => t.id != topic_id) ++ [newRow] }

/-- One `table.delete("id = '<i>'")` call per id, in order — the shape of the
deletion loops in `delete_category` / `delete_topic`. -/
def delete_by_ids (rows : List α) (key : α → String) (ids : List String) :
    List α :=
  ids.foldl (fun acc i => acc.filter (fun r => key r != i)) rows

/-- The individual storage-engine deletions issued by a cascade delete, in
issue order. -/
inductive DelOp where
  | entry (id : String)
  | topic (id : String)
  | category (id : String)
deriving Repr, DecidableEq

/-- Shallow embedding of `LanceDBManager.delete_category`
(lancedb_manager.py lines 265-291): enumerate the topics owned by the
category, enumerate the entries owned by those topics, delete the entries
one by one, then the topics one by one, then the category row itself.
Returns the new store state together with the ordered trace of engine
deletions.  (The Python `except` branch returns `False`; in this pure model
none of the engine calls fail, matching the success case of the claim.) -/
def delete_category (db : DB) (category_id : String) : DB × List DelOp :=
  let category_topics := db.topics.filter (fun t => t.category_id == category_id)
  let topic_ids := category_topics.map (fun t => t.id)
  let entryStep : List Entry × List DelOp :=
    if topic_ids.isEmpty then (db.entries, [])
    else
      let topic_entries :=
        db.entries.filter (fun e => topic_ids.contains e.topic_id)
      let entry_ids := topic_entries.map (fun e => e.id)
      (delete_by_ids db.entries (fun e => e.id) entry_ids,
       entry_ids.map DelOp.entry)
  let topics1 := delete_by_ids db.topics (fun t => t.id) topic_ids
  let categories1 := db.categories.filter (fun c => c.id != category_id)
  ({ categories := categories1, topics := topics1, entries := entryStep.1 },
   entryStep.2 ++ topic_ids.map DelOp.topic ++ [DelOp.category category_id])

/-! ## Embedding provider wrapper (knowledge_base.py, `OpenAIEmbeddings`)

The OpenAI API call is abstracted as a function
`provider : String → Except String (List Rat)` and the pure text
preprocessing of `Tokenizer.preprocess_for_embedding` as
`preprocess : String → String`.  An `Except.error` result of the embedded
functions models a raised Python exception. -/

/-- Shallow embedding of `OpenAIEmbeddings.get_embedding`
(knowledge_base.py lines 79-106): raise `ValueError` when the client was
never initialized; otherwise preprocess the text and call the provider
inside `try`, returning the all-zero vector of length `dims` on any
provider exception. -/
def get_embedding (clientReady : Bool) (dims : Nat)
    (preprocess : String → String)
    (provider : String → Except String (List Rat))
    (text : String) : Except String (List Rat) :=
  if !clientReady then
    .error "OpenAI client not initialized - API key missing"
  else
    match provider (preprocess text) with
    | .ok v => .ok v
    | .error _ => .ok (List.replicate dims 0)

/-- Python truthiness of the optional `content` argument
(`if generate_embedding and content:` in `create_entry`). -/
def contentTruthy : Option String → Bool
  | none => false
  | some c => c != ""

/-- The embedding-computation stage of `LanceDBManager.create_entry`
(lancedb_manager.py lines 390-401).  Returns the vector that will be stored
together with a flag recording whether the local `except` fallback branch
(lines 397-399) executed. -/
def create_entry_vector (clientReady : Bool) (dims : Nat)
    (preprocess : String → String)
    (provider : String → Except String (List Rat))
    (generate_embedding : Bool) (content : Option String) :
    List Rat × Bool :=
  if generate_embedding && contentTruthy content then
    match get_embedding clientReady dims preprocess provider
        (content.getD "") with
    | .ok v => (v, false)
    | .error _ => (List.replicate dims 0, true)
  else
    (List.replicate dims 0, false)

/-- The embedding-computation stage of `LanceDBManager.update_entry`
(lancedb_manager.py lines 473-489).  The guard is
`generate_embedding and content is not None` (not truthiness), the text
embedded is the already-merged `updated_content`, and on failure the current
row's vector is kept (zeros when the row had none).  The Bool flag records
whether the `except` fallback branch (lines 479-484) executed. -/
def update_entry_vector (clientReady : Bool) (dims : Nat)
    (preprocess : String → String)
    (provider : String → Except String (List Rat))
    (generate_embedding : Bool) (content : Option String)
    (updated_content : String) (current_vector : Option (List Rat)) :
    List Rat × Bool :=
  if generate_embedding && content.isSome then
    match get_embedding clientReady dims preprocess provider
        updated_content with
    | .ok v => (v, false)
    | .error _ =>
      (match current_vector with
       | some v => v
       | none => List.replicate dims 0, true)
  else
    (match current_vector with
     | some v => v
     | none => List.replicate dims 0, false)

/-- Shallow embedding of `LanceDBManager.update_entry`
(lancedb_manager.py lines 452-523).  Field merging follows the source:
`title` by truthiness, `content` and `source` by `is not None`, `tags` kept
as the current serialized `tags_json` when the argument is absent (the
argument is modelled by its serialized JSON form `tags_json`),
`created_at` preserved, `updated_at` set to `now`.  The old row is deleted
and the merged row appended. -/
def update_entry (db : DB) (clientReady : Bool) (dims : Nat)
    (preprocess : String → String)
    (provider : String → Except String (List Rat))
    (now : String) (entry_id : String)
    (title : Option String) (content : Option String)
    (tags_json : Option String) (source : Option String)
    (generate_embedding : Bool) : Except String DB :=
  match db.entries.find? (fun e => e.id == entry_id) with
  | none => .error ("Entry with id " ++ entry_id ++ " not found")
  | some current =>
    let updated_title := pyOr title current.title
    let updated_content := pyOrIsNone content current.content
    let updated_source := pyOrIsNone source current.source
    let updated_tags_json :=
      match tags_json with
      | some t => t
      | none => current.tags_json
    let vec := update_entry_vector clientReady dims preprocess provider
      generate_embedding content updated_content (some current.vector)
    let newRow : Entry :=
      { id := entry_id, topic_id := current.topic_id, title := updated_title,
        content := updated_content, tags_json := updated_tags_json,
        created_at := current.created_at, updated_at := now,
        vector := vec.1, source := updated_source }
    .ok { db with
          entries := db.entries.filter (fun e => e.id != entry_id) ++ [newRow] }

/-! ## Store construction (C6)

`KnowledgeBase.__init__` (knowledge_base.py lines 225-272) inspects the
schema of an existing `documents` table and compares the stored vector-column
width against the configured provider width, raising `RuntimeError` on a
mismatch.  `LanceDBManager.__init__` (lancedb_manager.py lines 57-66 with
`_ensure_table_exists`, lines 181-192) creates missing tables and
re-triggers index creation on existing ones; it performs no width check. -/

/-- A stored table as seen at construction time: its name and, when it has a
vector column, that column's fixed width. -/
structure StoredTable where
  name : String
  vectorWidth : Option Nat
deriving Repr, DecidableEq

/-- Shallow embedding of the table-opening logic of
`KnowledgeBase.__init__` (knowledge_base.py lines 225-272).
`existing` is the schema of the `documents` table when it already exists. -/
def knowledgeBase_init (existing : Option StoredTable)
    (create_if_not_exists : Bool) (dims : Nat) : Except String Unit :=
  match existing with
  | some tbl =>
    match tbl.vectorWidth with
    | some w =>
      if w ≠ dims then
        .error "Vector dimensions mismatch"
      else
        .ok ()
    | none => .error "Could not determine vector dimensions from schema"
  | none =>
    if create_if_not_exists then .ok ()
    else .error "Table does not exist and create_if_not_exists is False"

/-- The three tables `_ensure_table_exists` iterates over
(`list(SCHEMAS.keys())`). -/
def schemaTableNames : List String := ["categories", "topics", "entries"]

/-- Shallow embedding of `LanceDBManager._ensure_table_exists`
(lancedb_manager.py lines 181-192): a missing table is created with the
currently configured width (for `entries`); an existing table is only
re-indexed, its stored width is never compared against `dims`. -/
def ensure_table_exists (tables : List StoredTable) (dims : Nat) :
    List StoredTable :=
  schemaTableNames.foldl
    (fun ts n =>
      if ts.any (fun t => t.name == n) then ts
      else ts ++ [{ name := n,
                    vectorWidth := if n == "entries" then some dims else none }])
    tables

/-- Shallow embedding of `LanceDBManager.__init__`
(lancedb_manager.py lines 57-66): connect, initialize embeddings, ensure the
tables exist.  No code path compares an existing table's vector width with
`dims`, so construction always succeeds. -/
def lanceDBManager_init (tables : List StoredTable) (dims : Nat) :
    Except String (List StoredTable) :=
  .ok (ensure_table_exists tables dims)

/-! ## RetrievalEngine: `search_table_fulltext` and `search_entries`

The storage engine's two query primitives are modelled at their interface:
full-text search is an abstract ranked-match function
`ftsEngine : String → List (Entry × Rat)` (row with similarity score),
guarded by `ftsAvailable` (the index-probe of lines 548-564); vector search
filters the rows by the predicate, ranks them by distance ascending and
truncates to the limit. -/

/-- The storage engine's nearest-neighbor search over the entries table:
predicate-filtered rows ranked by ascending distance, truncated to `limit`
(`table.search(vec).where(pred).limit(limit)`). -/
def vector_search (entries : List Entry) (dist : Entry → Rat)
    (pred : Entry → Bool) (limit : Nat) : List (Entry × Rat) :=
  (pySorted (fun p => p.2)
    ((entries.filter pred).map (fun e => (e, dist e)))).take limit

/-- Shallow embedding of `LanceDBManager.search_table_fulltext`
(lancedb_manager.py lines 531-593): when the index probe fails
(`ftsAvailable = false`) return `[]`; otherwise return the engine's ranked
matches truncated to `limit` (rows carry their `_score`; the dropped
`vector` column and passthrough row fields are not represented). -/
def search_table_fulltext (ftsAvailable : Bool)
    (ftsEngine : String → List (Entry × Rat))
    (query : String) (limit : Nat) : List (Entry × Rat) :=
  if !ftsAvailable then []
  else (ftsEngine query).take limit

/-- The denormalized result-row shape assembled by `search_entries`
(lancedb_manager.py lines 682-693): entry fields plus score, owning-topic
and owning-category names.  The parsed `tags` field is kept in its
serialized `tags_json` form. -/
structure SearchResult where
  id : String
  title : String
  content : String
  score : Rat
  source : String
  topic_id : String
  topic_name : String
  category_id : Option String
  category_name : String
  tags_json : String
deriving Repr, DecidableEq

/-- The pandas idiom
`df[df["id"] == x].iloc[0] if not df.empty else None` used for topic lookup
(lines 625, 677): `none` when the whole frame is empty, the first matching
row otherwise — but an `IndexError` (modelled as `Except.error`) when the
frame is nonempty and no row matches. -/
def iloc_lookup_topic (topics : List Topic) (tid : String) :
    Except Unit (Option Topic) :=
  if topics.isEmpty then .ok none
  else
    match topics.find? (fun t => t.id == tid) with
    | some t => .ok (some t)
    | none => .error ()

/-- The same pandas lookup idiom for the categories frame
(lines 629, 680). -/
def iloc_lookup_category (categories : List Category) (cid : String) :
    Except Unit (Option Category) :=
  if categories.isEmpty then .ok none
  else
    match categories.find? (fun c => c.id == cid) with
    | some c => .ok (some c)
    | none => .error ()

/-- Field assembly of a denormalized result row
(lancedb_manager.py lines 682-693 and the analogous full-text branch lines
631-636): `"Unknown"` names are substituted when a lookup legitimately
produced `None`. -/
def denorm_fields (p : Entry × Rat) (topic_info : Option Topic)
    (category_info : Option Category) : SearchResult :=
  { id := p.1.id
    title := p.1.title
    content := p.1.content
    score := p.2
    source := p.1.source
    topic_id := p.1.topic_id
    topic_name :=
      match topic_info with
      | some t => t.name
      | none => "Unknown"
    category_id :=
      match topic_info with
      | some t => some t.category_id
      | none => none
    category_name :=
      match category_info with
      | some c => c.name
      | none => "Unknown"
    tags_json := p.1.tags_json }

/-- Denormalization of one scored row, continued: first the topic lookup,
then — only when the topic lookup produced a row — the category lookup, then
the field assembly of `denorm_fields`.  A raised `IndexError` propagates. -/
def denorm_row (db : DB) (p : Entry × Rat) : Except Unit SearchResult :=
  match iloc_lookup_topic db.topics p.1.topic_id with
  | .error e => .error e
  | .ok topic_info =>
    match topic_info with
    | some t =>
      match iloc_lookup_category db.categories t.category_id with
      | .error e => .error e
      | .ok category_info => .ok (denorm_fields p (some t) category_info)
    | none => .ok (denorm_fields p none none)

/-- Denormalize every row of a result set in order; the first raised
`IndexError` aborts the whole loop (the `for` loop body of lines 676-693). -/
def denorm_all (db : DB) : List (Entry × Rat) → Except Unit (List SearchResult)
  | [] => .ok []
  | p :: ps =>
    match denorm_row db p with
    | .error e => .error e
    | .ok r =>
      match denorm_all db ps with
      | .error e => .error e
      | .ok rs => .ok (r :: rs)

/-- The raw scored rows produced by the vector path of `search_entries`
(lancedb_manager.py lines 645-666): embed the query, build the filter
predicate — exact `topic_id` match, or membership in the topics of the
category, with the source's `if topic_ids:` guard meaning a category that
owns no topics applies no restriction at all — then run the engine. -/
def search_entries_raw (db : DB) (embed : String → List Rat)
    (dist : List Rat → List Rat → Rat) (limit : Nat)
    (category_id topic_id : Option String) (query : String) :
    List (Entry × Rat) :=
  let query_embedding := embed query
  let pred : Entry → Bool :=
    match topic_id with
    | some tid => fun e => e.topic_id == tid
    | none =>
      match category_id with
      | some cid =>
        let topic_ids :=
          (db.topics.filter (fun t => t.category_id == cid)).map (fun t => t.id)
        if topic_ids.isEmpty then fun _ => true
        else fun e => topic_ids.contains e.topic_id
      | none => fun _ => true
  vector_search db.entries (fun e => dist query_embedding e.vector) pred limit

/-- The outcome of `search_entries`, instrumented with whether
`search_table_fulltext` was invoked during the call. -/
structure SearchOutcome where
  results : List SearchResult
  fulltextInvoked : Bool
deriving Repr, DecidableEq

/-- Shallow embedding of `LanceDBManager.search_entries`
(lancedb_manager.py lines 595-700).  Line 610 calls
`search_table_fulltext` unconditionally, before the hierarchy filters are
even inspected — `fulltextInvoked` records that call.  Its results are used
only when they are nonempty AND no `category_id`/`topic_id` filter was
given (line 613); otherwise the vector path runs.  In either branch a
lookup `IndexError` during denormalization is caught by the outer
`except` (lines 696-700), which returns `[]`. -/
def search_entries (db : DB) (ftsAvailable : Bool)
    (ftsEngine : String → List (Entry × Rat))
    (embed : String → List Rat) (dist : List Rat → List Rat → Rat)
    (query : String) (limit : Nat)
    (category_id topic_id : Option String) : SearchOutcome :=
  let fulltext_results := search_table_fulltext ftsAvailable ftsEngine query limit
  let has_fulltext_results := !fulltext_results.isEmpty
  if has_fulltext_results && !(category_id.isSome || topic_id.isSome) then
    match denorm_all db fulltext_results with
    | .ok rs => { results := rs, fulltextInvoked := true }
    | .error _ => { results := [], fulltextInvoked := true }
  else
    match denorm_all db
        (search_entries_raw db embed dist limit category_id topic_id query) with
    | .ok rs => { results := rs, fulltextInvoked := true }
    | .error _ => { results := [], fulltextInvoked := true }

/-! ## AnswerSynthesizer (qa_processor.py, `QAProcessor`)

Retrieval is abstracted by its result list; the generative provider by a
function `generate : String → Except String String` (error = raised API
exception).  Scores are `Rat`. -/

/-- The projected candidate shape built from entry search results
(qa_processor.py lines 164-170) and also the shape of knowledge-base /
caller-supplied documents: `score` is optional because caller-supplied
docs may lack one (`all('score' in doc ...)`, line 320). -/
structure Doc where
  title : String
  text : String
  source : String
  score : Option Rat
deriving Repr, DecidableEq

/-- One element of the `sources[]` list of an answer
(qa_processor.py lines 219-224 and 356-361). -/
structure Source where
  title : String
  source : String
  text : String
  relevance_score : Rat
deriving Repr, DecidableEq

/-- The `{answer, sources}` dictionary returned by the synthesizer. -/
structure QAResult where
  answer : String
  sources : List Source
deriving Repr, DecidableEq

/-- Projection of entry search results into synthesizer candidates
(qa_processor.py lines 163-170): `text` from `content`, with the source's
defaults for missing keys (all keys are present in our row model). -/
def project_entry_results (rs : List SearchResult) : List Doc :=
  rs.map (fun r =>
    { title := r.title, text := r.content, source := r.source,
      score := some r.score })

/-- Shallow embedding of `QAProcessor.answer_question`
(qa_processor.py lines 129-278).  `entry_results` is what
`db_manager.search_entries` returned (step 2a), `kb_results` what
`self.kb.search` would return (step 2b, consulted only when step 2a found
nothing and a knowledge base is attached).  After the relevance filter
(line 191) and the top-2 fallback (lines 198-202), control reaches line 210
of the source, which is the bare expression `s` — an unbound name.
Evaluating it raises `NameError: name 's' is not defined`, which the outer
handler (lines 272-278) turns into an error answer with empty sources; the
context-assembly and generation code of lines 211-270 is unreachable. -/
def answer_question (entry_results : List SearchResult) (kbAvailable : Bool)
    (kb_results : List Doc) (relevance_threshold : Rat) : QAResult :=
  let search_results := project_entry_results entry_results
  let search_results :=
    if search_results.isEmpty && kbAvailable && !kb_results.isEmpty then
      kb_results
    else search_results
  if search_results.isEmpty then
    { answer := "I couldn\x27t find any relevant information in the knowledge base to answer your question."
      sources := [] }
  else
    let filtered_results :=
      search_results.filter (fun r => r.score.getD 1 < relevance_threshold)
    let filtered_results :=
      if filtered_results.isEmpty then search_results.take 2
      else filtered_results
    if filtered_results.isEmpty then
      { answer := "I couldn\x27t find any relevant information in the knowledge base to answer your question."
        sources := [] }
    else
      { answer := "An error occurred while processing your question: name \x27s\x27 is not defined"
        sources := [] }

/-- The generation prompt of `answer_question_with_docs`
(qa_processor.py lines 367-376): instructions, the question, and the
assembled context blocks joined by newlines. -/
def qa_prompt (user_question : String) (context : List String) : String :=
  "Based on the following information from a knowledge base, please answer the user\x27s question.\n"
    ++ "If the information is not sufficient to answer the question completely, say so.\n"
    ++ "If the information is contradictory, explain the different perspectives.\n"
    ++ "Include specific references to sources when possible.\n\n"
    ++ "User question: " ++ user_question ++ "\n\n"
    ++ "Knowledge base information:\n"
    ++ String.intercalate "\n" context ++ "\n\n"
    ++ "Provide a clear and concise answer that directly addresses the user\x27s question."

/-- The document-selection stage of `QAProcessor.answer_question_with_docs`
(qa_processor.py lines 320-343): when every doc carries a score, keep those
below the threshold; if none survive, fall back to the top **5** docs by
ascending score; if fewer than 3 survive and more docs exist, top up to 3
from the remaining docs sorted by score; when some doc lacks a score, use
the first 8 docs unfiltered.  (`doc.get('score', 2.0)` is the source's
default.) -/
def select_docs (docs : List Doc) (relevance_threshold : Rat) : List Doc :=
  if docs.all (fun d => d.score.isSome) then
    let filtered_docs := docs.filter (fun d => d.score.getD 2 < relevance_threshold)
    if filtered_docs.isEmpty then
      (pySorted (fun d => d.score.getD 2) docs).take 5
    else if filtered_docs.length < 3 && docs.length > filtered_docs.length then
      let remaining_docs := docs.filter (fun d => !(filtered_docs.contains d))
      let sorted_remaining := pySorted (fun d => d.score.getD 2) remaining_docs
      filtered_docs ++ sorted_remaining.take (3 - filtered_docs.length)
    else filtered_docs
  else
    docs.take 8

/-- Shallow embedding of `QAProcessor.answer_question_with_docs`
(qa_processor.py lines 280-418): no-docs short-circuit, document selection,
context/`sources[]` assembly (lines 345-361, `doc.get('score', 0.0)` is the
sources default), then one generation call with raw-excerpt fallbacks on a
missing client or an API error. -/
def answer_question_with_docs (docs : List Doc) (relevance_threshold : Rat)
    (clientAvailable : Bool) (generate : String → Except String String)
    (user_question : String) : QAResult :=
  if docs.isEmpty then
    { answer := "I couldn\x27t find any relevant information to answer your question."
      sources := [] }
  else
    let filtered_docs := select_docs docs relevance_threshold
    let context := filtered_docs.map (fun d =>
      "Content: " ++ d.text ++ "\nSource: " ++ d.title ++ " (" ++ d.source ++ ")\n")
    let sources := filtered_docs.map (fun d =>
      { title := d.title, source := d.source, text := d.text,
        relevance_score := d.score.getD 0 })
    let firstText := ((filtered_docs.head?).map (fun d => d.text)).getD ""
    let answer :=
      if clientAvailable then
        match generate (qa_prompt user_question context) with
        | .ok a => a
        | .error e =>
          "API Error: " ++ e
            ++ "\n\nHere is the most relevant information I found:\n\n" ++ firstText
      else
        "Here is the most relevant information I found:\n\n" ++ firstText
    { answer := answer, sources := sources }

/-! ## Concrete stores and candidate sets used as witnesses -/

def exDB4 : DB :=
  { categories := [{ id := "c1", name := "Work", description := some "w" }],
    topics := [{ id := "t1", category_id := "c1", name := "Meetings",
                 description := none }],
    entries := [{ id := "e1", topic_id := "t1", title := "Standup notes",
                  content := "notes", tags_json := "[]", created_at := "0",
                  updated_at := "0", vector := [0], source := "manual" }] }

def exTables6 : List StoredTable :=
  [{ name := "categories", vectorWidth := none },
   { name := "topics", vectorWidth := none },
   { name := "entries", vectorWidth := some 1536 }]

def exEntry8 : Entry :=
  { id := "e1", topic_id := "t1", title := "T", content := "abc",
    tags_json := "[]", created_at := "0", updated_at := "0",
    vector := [0, 0], source := "manual" }

def exDB8 : DB := { categories := [], topics := [], entries := [exEntry8] }

def exDB10 : DB :=
  { categories := [{ id := "c1", name := "Old", description := some "keep" }],
    topics := [{ id := "t1", category_id := "c1", name := "TOld",
                 description := some "keepT" }],
    entries := [] }

def exEntry2 : Entry :=
  { id := "e1", topic_id := "t1", title := "Hello", content := "world",
    tags_json := "[]", created_at := "0", updated_at := "0",
    vector := [1], source := "manual" }

def exDB2 : DB :=
  { categories := [{ id := "c1", name := "C", description := some "d" }],
    topics := [{ id := "t1", category_id := "c1", name := "T",
                 description := none }],
    entries := [exEntry2] }

def exEntry5 : Entry :=
  { id := "e2", topic_id := "t2", title := "Dangling", content := "body",
    tags_json := "[]", created_at := "0", updated_at := "0",
    vector := [1], source := "manual" }

def exDB5 : DB :=
  { categories := [],
    topics := [{ id := "t1", category_id := "c1", name := "T",
                 description := none }],
    entries := [exEntry5] }

def exDB5b : DB := { categories := [], topics := [], entries := [exEntry5] }

def exResult1 : SearchResult :=
  { id := "e1", title := "Standup notes", content := "notes", score := 3,
    source := "manual", topic_id := "t1", topic_name := "Meetings",
    category_id := some "c1", category_name := "Work", tags_json := "[]" }

def exDocs3 : List Doc :=
  [{ title := "A", text := "ta", source := "s", score := some 9 },
   { title := "B", text := "tb", source := "s", score := some 8 },
   { title := "C", text := "tc", source := "s", score := some 7 }]

/-! ## Helper lemmas -/

theorem mem_insertByRat (key : α → Rat) (a x : α) (l : List α) :
    x ∈ insertByRat key a l ↔ x = a ∨ x ∈ l := by
  induction l with
  | nil => simp [insertByRat]
  | cons b bs ih =>
    simp only [insertByRat]
    split
    · simp
    · simp [ih]; tauto

theorem mem_pySorted (key : α → Rat) (x : α) (l : List α) :
    x ∈ pySorted key l ↔ x ∈ l := by
  induction l with
  | nil => simp [pySorted]
  | cons a as ih => simp [pySorted, mem_insertByRat, ih]

theorem length_insertByRat (key : α → Rat) (a : α) (l : List α) :
    (insertByRat key a l).length = l.length + 1 := by
  induction l with
  | nil => simp [insertByRat]
  | cons b bs ih =>
    simp only [insertByRat]
    split <;> simp [ih]

theorem length_pySorted (key : α → Rat) (l : List α) :
    (pySorted key l).length = l.length := by
  induction l with
  | nil => rfl
  | cons a as ih => simp [pySorted, length_insertByRat, ih]

theorem pySorted_ne_nil (key : α → Rat) (l : List α) (h : l ≠ []) :
    pySorted key l ≠ [] := by
  intro hc
  apply h
  have hlen := length_pySorted key l
  rw [hc] at hlen
  exact List.length_eq_zero.mp hlen.symm

theorem take_ne_nil_of_ne_nil (l : List α) (n : Nat) (hn : n ≠ 0)
    (h : l ≠ []) : l.take n ≠ [] := by
  cases l with
  | nil => exact absurd rfl h
  | cons a as =>
    cases n with
    | zero => exact absurd rfl hn
    | succ m => simp [List.take]

theorem mem_delete_by_ids (key : α → String) (ids : List String)
    (rows : List α) (x : α) :
    x ∈ delete_by_ids rows key ids ↔ x ∈ rows ∧ key x ∉ ids := by
  induction ids generalizing rows with
  | nil => simp [delete_by_ids]
  | cons i is ih =>
    simp only [delete_by_ids, List.foldl_cons] at *
    rw [ih]
    simp only [List.mem_filter, bne_iff_ne, ne_eq, decide_not, List.mem_cons,
      decide_eq_true_eq]
    constructor
    · rintro ⟨⟨hx, hne⟩, hnotin⟩
      refine ⟨hx, ?_⟩
      intro hc
      rcases hc with hc | hc
      · exact absurd hc (by simpa using hne)
      · exact hnotin hc
    · rintro ⟨hx, hnotin⟩
      refine ⟨⟨hx, ?_⟩, fun hc => hnotin (Or.inr hc)⟩
      simpa using fun hc => hnotin (Or.inl hc)

theorem mem_vector_search (entries : List Entry) (dist : Entry → Rat)
    (pred : Entry → Bool) (limit : Nat) (p : Entry × Rat)
    (hp : p ∈ vector_search entries dist pred limit) :
    p.1 ∈ entries ∧ pred p.1 = true := by
  unfold vector_search at hp
  have h1 := List.mem_of_mem_take hp
  rw [mem_pySorted] at h1
  rcases List.mem_map.mp h1 with ⟨e, he, rfl⟩
  exact ⟨(List.mem_filter.mp he).1, (List.mem_filter.mp he).2⟩

theorem denorm_row_ok_topic_id (db : DB) (p : Entry × Rat)
    (r : SearchResult) (h : denorm_row db p = .ok r) :
    r.topic_id = p.1.topic_id := by
  unfold denorm_row at h
  cases h1 : iloc_lookup_topic db.topics p.1.topic_id with
  | error e => simp only [h1] at h; cases h
  | ok ti =>
    simp only [h1] at h
    cases ti with
    | none => cases h; rfl
    | some t =>
      cases h2 : iloc_lookup_category db.categories t.category_id with
      | error e => simp only [h2] at h; cases h
      | ok ci =>
        simp only [h2] at h
        cases h
        rfl

theorem denorm_all_ok_mem (db : DB) (rows : List (Entry × Rat))
    (rs : List SearchResult) (h : denorm_all db rows = .ok rs) :
    ∀ r ∈ rs, ∃ p ∈ rows, denorm_row db p = .ok r := by
  induction rows generalizing rs with
  | nil =>
    cases h
    intro r hr
    cases hr
  | cons p ps ih =>
    unfold denorm_all at h
    cases h1 : denorm_row db p with
    | error e => simp only [h1] at h; cases h
    | ok r0 =>
      simp only [h1] at h
      cases h2 : denorm_all db ps with
      | error e => simp only [h2] at h; cases h
      | ok rs0 =>
        simp only [h2] at h
        cases h
        intro r hr
        rcases List.mem_cons.mp hr with hr | hr
        · exact ⟨p, List.mem_cons_self .., by rw [hr]; exact h1⟩
        · rcases ih rs0 h2 r hr with ⟨q, hq, hdq⟩
          exact ⟨q, List.mem_cons_of_mem _ hq, hdq⟩

theorem denorm_all_error_of_exists (db : DB) (rows : List (Entry × Rat))
    (h : ∃ p ∈ rows, ∀ r, denorm_row db p ≠ .ok r) :
    denorm_all db rows = .error () := by
  induction rows with
  | nil => rcases h with ⟨p, hp, _⟩; cases hp
  | cons q qs ih =>
    rcases h with ⟨p, hp, hbad⟩
    unfold denorm_all
    rcases List.mem_cons.mp hp with hp | hp
    · subst hp
      cases h1 : denorm_row db p with
      | error e => rfl
      | ok r => exact absurd h1 (hbad r)
    · cases h1 : denorm_row db q with
      | error e => rfl
      | ok r => rw [ih ⟨p, hp, hbad⟩]

theorem denorm_row_topics_nil (db : DB) (hts : db.topics = [])
    (p : Entry × Rat) : denorm_row db p = .ok (denorm_fields p none none) := by
  unfold denorm_row iloc_lookup_topic
  rw [hts]
  rfl

theorem denorm_all_topics_nil (db : DB) (hts : db.topics = [])
    (rows : List (Entry × Rat)) :
    denorm_all db rows = .ok (rows.map (fun p => denorm_fields p none none)) := by
  induction rows with
  | nil => rfl
  | cons p ps ih =>
    unfold denorm_all
    rw [denorm_row_topics_nil db hts p, ih]
    rfl

theorem get_embedding_true_eq (dims : Nat) (pp : String → String)
    (prov : String → Except String (List Rat)) (t : String) :
    get_embedding true dims pp prov t =
      .ok (match prov (pp t) with
           | .ok v => v
           | .error _ => List.replicate dims 0) := by
  unfold get_embedding
  cases prov (pp t) <;> rfl

/-! ## Claim C7: vector-index parameter policy -/

/-- C7: `create_vector_index` on an existing table/column builds no index and
returns false when the table has fewer than 5 rows; otherwise it builds an
index with `numPartitions = max(floor(sqrt(rowCount)), 2)`,
`numSubVectors = clamp(floor(W/100), 4, 96)` when `W > 1000` and
`max(floor(W/8), 4)` otherwise, using cosine distance. -/
theorem create_vector_index_params (tableSize dims : Nat) :
    (tableSize < 5 → create_vector_index true true tableSize dims = none) ∧
    (5 ≤ tableSize →
      create_vector_index true true tableSize dims =
        some { numPartitions := specNumPartitions tableSize
               numSubVectors := specNumSubVectors dims
               distanceType := "cosine" }) := by
  constructor
  · intro h
    simp [create_vector_index, h]
  · intro h
    simp only [create_vector_index, Bool.not_true, Bool.false_eq_true,
      if_false, Nat.not_lt.mpr h, specNumPartitions, specNumSubVectors]
    split <;> simp_all

theorem sqrt_ten : Nat.sqrt 10 = 3 := by
  have h1 : 3 ≤ Nat.sqrt 10 := Nat.le_sqrt.mpr (by norm_num)
  have h2 : Nat.sqrt 10 < 4 := Nat.sqrt_lt.mpr (by norm_num)
  omega

/-- Witness for C7: a 10-row table with the 3072-wide provider gets a cosine
index with 3 partitions and 30 sub-vectors; a 3-row table gets none. -/
theorem create_vector_index_params_witness :
    create_vector_index true true 10 3072 =
      some { numPartitions := 3, numSubVectors := 30,
             distanceType := "cosine" } ∧
    create_vector_index true true 3 3072 = none := by
  constructor
  · rw [(create_vector_index_params 10 3072).2 (by decide)]
    norm_num [specNumPartitions, specNumSubVectors, sqrt_ten]
  · exact (create_vector_index_params 3 3072).1 (by decide)

/-! ## Claim C4: cascade delete -/

/-- C4: after `delete_category` succeeds, no topic row references the deleted
category and no entry row references any topic that was under it, and the
trace of engine deletions is bottom-up: entries first, then topics, then the
category row. -/
theorem delete_category_cascade (db : DB) (cid : String) :
    (∀ t ∈ (delete_category db cid).1.topics, t.category_id ≠ cid) ∧
    (∀ e ∈ (delete_category db cid).1.entries,
      ∀ t ∈ db.topics, t.category_id = cid → e.topic_id ≠ t.id) ∧
    (∃ (eids tids : List String),
      (delete_category db cid).2 =
        List.map DelOp.entry eids ++ List.map DelOp.topic tids ++
          [DelOp.category cid]) := by
  refine ⟨?_, ?_, ?_⟩
  · intro t ht hcat
    simp only [delete_category] at ht
    rw [mem_delete_by_ids] at ht
    exact ht.2 (List.mem_map.mpr
      ⟨t, List.mem_filter.mpr ⟨ht.1, by simp [hcat]⟩, rfl⟩)
  · intro e he t ht hcat heq
    simp only [delete_category] at he
    by_cases hemp :
        ((db.topics.filter (fun t => t.category_id == cid)).map
          (fun t => t.id)).isEmpty
    · have : t.id ∈ (db.topics.filter (fun t => t.category_id == cid)).map
          (fun t => t.id) :=
        List.mem_map.mpr ⟨t, List.mem_filter.mpr ⟨ht, by simp [hcat]⟩, rfl⟩
      rw [List.isEmpty_iff] at hemp
      rw [hemp] at this
      cases this
    · rw [if_neg hemp] at he
      rw [mem_delete_by_ids] at he
      apply he.2
      apply List.mem_map.mpr
      refine ⟨e, List.mem_filter.mpr ⟨he.1, ?_⟩, rfl⟩
      rw [heq]
      simp only [List.contains, List.elem_eq_mem, decide_eq_true_eq]
      exact List.mem_map.mpr ⟨t, List.mem_filter.mpr ⟨ht, by simp [hcat]⟩, rfl⟩
  · simp only [delete_category]
    by_cases hemp :
        ((db.topics.filter (fun t => t.category_id == cid)).map
          (fun t => t.id)).isEmpty
    · refine ⟨[], (db.topics.filter (fun t => t.category_id == cid)).map
        (fun t => t.id), ?_⟩
      rw [if_pos hemp]
      simp
    · refine ⟨((db.entries.filter (fun e =>
        ((db.topics.filter (fun t => t.category_id == cid)).map
          (fun t => t.id)).contains e.topic_id)).map (fun e => e.id)),
        (db.topics.filter (fun t => t.category_id == cid)).map
          (fun t => t.id), ?_⟩
      rw [if_neg hemp]

/-- Witness for C4: the cascade on a one-category, one-topic, one-entry
store. -/
theorem delete_category_cascade_witness :
    (∀ t ∈ (delete_category exDB4 "c1").1.topics, t.category_id ≠ "c1") ∧
    (∀ e ∈ (delete_category exDB4 "c1").1.entries,
      ∀ t ∈ exDB4.topics, t.category_id = "c1" → e.topic_id ≠ t.id) ∧
    (∃ (eids tids : List String),
      (delete_category exDB4 "c1").2 =
        List.map DelOp.entry eids ++ List.map DelOp.topic tids ++
          [DelOp.category "c1"]) :=
  delete_category_cascade exDB4 "c1"

/-! ## Claim C6: construction-time dimension check -/

/-- C6 counterexample: `LanceDBManager` construction over an existing
`entries` table whose stored vector width (1536) differs from the configured
provider width (3072) succeeds instead of failing at startup — the mismatch
is deferred to later operations. -/
theorem lanceDBManager_init_ignores_width_mismatch :
    lanceDBManager_init exTables6 3072 = .ok exTables6 ∧
    exTables6.any (fun t => t.name == "entries" &&
      t.vectorWidth == some 1536) = true ∧
    (1536 : Nat) ≠ 3072 := by
  refine ⟨rfl, by decide, by decide⟩

/-- C6 amended: `KnowledgeBase` construction over an existing documents
table whose stored width differs from the configured width fails at startup
with the dimension-mismatch error (and with an error when the width cannot
be determined at all), while `LanceDBManager` construction never fails on a
width mismatch. -/
theorem knowledgeBase_init_dimension_mismatch (w dims : Nat) (hw : w ≠ dims)
    (tbl : StoredTable) (htbl : tbl.vectorWidth = some w) (cine : Bool) :
    knowledgeBase_init (some tbl) cine dims =
      .error "Vector dimensions mismatch" ∧
    (∀ ts d, ∃ ts2, lanceDBManager_init ts d = .ok ts2) := by
  constructor
  · unfold knowledgeBase_init
    simp only [htbl]
    simp [hw]
  · intro ts d
    exact ⟨ensure_table_exists ts d, rfl⟩

/-- Witness for C6: a stored width of 1536 against a configured width of
3072 is rejected at `KnowledgeBase` construction. -/
theorem knowledgeBase_init_dimension_mismatch_witness :
    knowledgeBase_init (some { name := "documents", vectorWidth := some 1536 })
        true 3072 = .error "Vector dimensions mismatch" :=
  (knowledgeBase_init_dimension_mismatch 1536 3072 (by decide)
    { name := "documents", vectorWidth := some 1536 } rfl true).1

/-! ## Claim C9: the embedding wrapper never raises once initialized -/

/-- C9: once the client is initialized, `get_embedding` never raises — on a
provider error it returns the all-zero vector of length `dims` — and hence
the `except` fallback branches in the embedding stages of `create_entry` and
`update_entry` never execute; on a provider error the vector that reaches
the stored record is the zero vector (the row schema carries no
degraded-mode flag). -/
theorem get_embedding_total_after_init (dims : Nat)
    (preprocess : String → String)
    (provider : String → Except String (List Rat)) (text : String) :
    (∃ v, get_embedding true dims preprocess provider text = .ok v) ∧
    (∀ e, provider (preprocess text) = .error e →
      get_embedding true dims preprocess provider text =
        .ok (List.replicate dims 0)) ∧
    (∀ gen content,
      (create_entry_vector true dims preprocess provider gen content).2
        = false) ∧
    (∀ gen content updc curv,
      (update_entry_vector true dims preprocess provider gen content
        updc curv).2 = false) ∧
    (∀ c e, contentTruthy c = true →
      provider (preprocess (c.getD "")) = .error e →
      create_entry_vector true dims preprocess provider true c =
        (List.replicate dims 0, false)) := by
  refine ⟨?_, ?_, ?_, ?_, ?_⟩
  · exact ⟨_, get_embedding_true_eq dims preprocess provider text⟩
  · intro e he
    rw [get_embedding_true_eq, he]
  · intro gen content
    unfold create_entry_vector
    cases hg : gen && contentTruthy content with
    | false => simp [hg]
    | true =>
      simp only [hg, if_true]
      rw [get_embedding_true_eq]
  · intro gen content updc curv
    unfold update_entry_vector
    cases hg : gen && content.isSome with
    | false => simp [hg]
    | true =>
      simp only [hg, if_true]
      rw [get_embedding_true_eq]
  · intro c e hc he
    unfold create_entry_vector
    simp only [hc, Bool.and_true, if_true]
    rw [get_embedding_true_eq, he]

/-- Witness for C9: a provider that always raises still yields `ok` zero
vectors and never triggers the store-side fallback branches. -/
theorem get_embedding_total_after_init_witness :
    get_embedding true 2 (fun s => s) (fun _ => .error "boom") "t"
      = .ok [0, 0] ∧
    create_entry_vector true 2 (fun s => s) (fun _ => .error "boom") true
      (some "abc") = ([0, 0], false) := by
  constructor
  · have h := (get_embedding_total_after_init 2 (fun s => s)
      (fun _ => .error "boom") "t").2.1 "boom" rfl
    rw [h]
    rfl
  · have h := (get_embedding_total_after_init 2 (fun s => s)
      (fun _ => .error "boom") "t").2.2.2.2 (some "abc") "boom" (by decide) rfl
    rw [h]
    rfl

/-! ## Claim C8: update without content change keeps the vector -/

/-- C8 counterexample: an `update_entry` call supplying `content` equal to
the entry's stored content (so the content does not change) still re-embeds:
the stored vector changes from the previous `[0, 0]` to the provider's
`[1, 1]`. -/
theorem update_entry_reembeds_unchanged_content :
    (some "abc" : Option String) = some exEntry8.content ∧
    update_entry exDB8 true 2 (fun s => s) (fun _ => .ok [1, 1]) "now" "e1"
        none (some "abc") none none true
      = .ok { categories := [], topics := [],
              entries := [{ exEntry8 with
                            updated_at := "now"
                            vector := [1, 1] }] } ∧
    ([1, 1] : List Rat) ≠ exEntry8.vector := by
  refine ⟨rfl, rfl, by decide⟩

/-- C8 amended: `update_entry` preserves the stored vector exactly when the
`content` argument is omitted (`None`) or `generate_embedding` is false; when
a `content` value is supplied with `generate_embedding` true it re-embeds
even if the supplied content equals the stored content (the source guard is
`content is not None`, not a change check). -/
theorem update_entry_preserves_vector_when_content_absent
    (db : DB) (ci : Bool) (dims : Nat) (pp : String → String)
    (prov : String → Except String (List Rat)) (now eid : String)
    (title : Option String) (content : Option String)
    (tj src : Option String) (gen : Bool) (cur : Entry)
    (hfind : db.entries.find? (fun e => e.id == eid) = some cur)
    (h : content = none ∨ gen = false) :
    ∃ db2,
      update_entry db ci dims pp prov now eid title content tj src gen
        = .ok db2 ∧
      ∀ e ∈ db2.entries, e.id = eid → e.vector = cur.vector := by
  unfold update_entry
  simp only [hfind]
  refine ⟨_, rfl, ?_⟩
  intro e he heid
  rcases List.mem_append.mp he with he | he
  · have := (List.mem_filter.mp he).2
    simp only [bne_iff_ne, ne_eq, decide_eq_true_eq] at this
    exact absurd heid this
  · rcases List.mem_singleton.mp he with rfl
    show (update_entry_vector ci dims pp prov gen content
      (pyOrIsNone content cur.content) (some cur.vector)).1 = cur.vector
    rcases h with h | h
    · subst h
      unfold update_entry_vector
      simp
    · subst h
      unfold update_entry_vector
      simp

/-- Witness for C8: updating only the title of `exEntry8` leaves its stored
vector `[0, 0]` untouched. -/
theorem update_entry_preserves_vector_witness :
    ∃ db2,
      update_entry exDB8 true 2 (fun s => s) (fun _ => .ok [1, 1]) "now" "e1"
        (some "T2") none none none true = .ok db2 ∧
      ∀ e ∈ db2.entries, e.id = "e1" → e.vector = exEntry8.vector :=
  update_entry_preserves_vector_when_content_absent exDB8 true 2
    (fun s => s) (fun _ => .ok [1, 1]) "now" "e1" (some "T2") none none none
    true exEntry8 rfl (Or.inl rfl)

/-! ## Claim C10: update_category with a new name drops the description -/

/-- C10: `update_category` with a new name and `description=None` stores a
null description instead of preserving the old one (lancedb_manager.py
line 256 passes the raw argument), while `update_topic` in the same
situation preserves the stored description — the concrete store `exDB10`
exhibits both behaviors. -/
theorem update_category_drops_description :
    update_category exDB10 "c1" (some "New") none
      = .ok { categories := [{ id := "c1", name := "New",
                               description := none }],
              topics := exDB10.topics, entries := [] } ∧
    update_topic exDB10 "t1" (some "NewT") none
      = .ok { categories := exDB10.categories,
              topics := [{ id := "t1", category_id := "c1", name := "NewT",
                           description := some "keepT" }],
              entries := [] } ∧
    exDB10.categories.map (fun c => c.description) = [some "keep"] := by
  refine ⟨rfl, rfl, rfl⟩

/-! ## Claim C2: hierarchy filters and the full-text path -/

theorem search_entries_raw_topic_filter (db : DB) (embed : String → List Rat)
    (dist : List Rat → List Rat → Rat) (lim : Nat) (cid : Option String)
    (tid0 q : String) (p : Entry × Rat)
    (hp : p ∈ search_entries_raw db embed dist lim cid (some tid0) q) :
    p.1.topic_id = tid0 := by
  unfold search_entries_raw at hp
  have h := (mem_vector_search _ _ _ _ p hp).2
  simpa using h

theorem search_entries_raw_category_filter (db : DB)
    (embed : String → List Rat) (dist : List Rat → List Rat → Rat)
    (lim : Nat) (cid0 q : String) (p : Entry × Rat)
    (hne : ∃ t ∈ db.topics, t.category_id = cid0)
    (hp : p ∈ search_entries_raw db embed dist lim (some cid0) none q) :
    ∃ t ∈ db.topics, t.category_id = cid0 ∧ p.1.topic_id = t.id := by
  unfold search_entries_raw at hp
  have hpred := (mem_vector_search _ _ _ _ p hp).2
  dsimp only at hpred
  rcases hne with ⟨t0, ht0, hcat0⟩
  have hmem : t0.id ∈ (db.topics.filter
      (fun t => t.category_id == cid0)).map (fun t => t.id) :=
    List.mem_map.mpr ⟨t0, List.mem_filter.mpr ⟨ht0, by simp [hcat0]⟩, rfl⟩
  have hnonempty : ¬ ((db.topics.filter
      (fun t => t.category_id == cid0)).map (fun t => t.id)).isEmpty = true := by
    intro hc
    rw [List.isEmpty_iff] at hc
    rw [hc] at hmem
    cases hmem
  rw [if_neg hnonempty] at hpred
  simp only [List.contains, List.elem_eq_mem, decide_eq_true_eq] at hpred
  rcases List.mem_map.mp hpred with ⟨t, ht, hid⟩
  have htf := List.mem_filter.mp ht
  exact ⟨t, htf.1, by simpa using htf.2, hid.symm⟩

/-- C2 counterexample: with a `topic_id` filter set, `search_entries` still
invokes the full-text search step — line 610 of the source runs before the
filters are inspected — even though the claim states the full-text search
function is never invoked when a filter is present. -/
theorem search_entries_invokes_fulltext_with_filter :
    (search_entries exDB2 true (fun _ => [(exEntry2, 9)]) (fun _ => [1])
      (fun _ _ => 0) "hello" 5 none (some "t1")).fulltextInvoked = true := by
  rfl

/-- C2 amended: with a `topicId` or `categoryId` filter set, `search_entries`
still invokes the full-text search step but discards its results: the
returned rows do not depend on the full-text engine and come exclusively
from the vector path, whose exact-match predicate restricts rows to the
requested `topicId`, or — when the requested category owns at least one
topic — to the topics under the requested `categoryId` (a category owning no
topics applies no restriction, by the source's `if topic_ids:` guard). -/
theorem search_entries_filtered_uses_vector_path (db : DB) (fa : Bool)
    (fts fts2 : String → List (Entry × Rat)) (embed : String → List Rat)
    (dist : List Rat → List Rat → Rat) (q : String) (lim : Nat)
    (cid tid : Option String) (hfilter : (cid.isSome || tid.isSome) = true) :
    ((search_entries db fa fts embed dist q lim cid tid).fulltextInvoked
      = true) ∧
    (search_entries db fa fts embed dist q lim cid tid
      = search_entries db fa fts2 embed dist q lim cid tid) ∧
    (∀ tid0, tid = some tid0 →
      ∀ r ∈ (search_entries db fa fts embed dist q lim cid tid).results,
        r.topic_id = tid0) ∧
    (∀ cid0, cid = some cid0 → tid = none →
      (∃ t ∈ db.topics, t.category_id = cid0) →
      ∀ r ∈ (search_entries db fa fts embed dist q lim cid tid).results,
        ∃ t ∈ db.topics, t.category_id = cid0 ∧ r.topic_id = t.id) := by
  have hred : ∀ f : String → List (Entry × Rat),
      search_entries db fa f embed dist q lim cid tid =
        (match denorm_all db
            (search_entries_raw db embed dist lim cid tid q) with
         | .ok rs => { results := rs, fulltextInvoked := true }
         | .error _ => { results := [], fulltextInvoked := true }) := by
    intro f
    unfold search_entries
    rw [hfilter]
    simp
  refine ⟨?_, by rw [hred fts, hred fts2], ?_, ?_⟩
  · rw [hred fts]
    cases denorm_all db (search_entries_raw db embed dist lim cid tid q) <;>
      rfl
  · intro tid0 htid r hr
    rw [hred fts] at hr
    cases hda : denorm_all db (search_entries_raw db embed dist lim cid tid q)
      with
    | error e =>
      rw [hda] at hr
      cases hr
    | ok rs =>
      rw [hda] at hr
      rcases denorm_all_ok_mem db _ rs hda r hr with ⟨p, hp, hdr⟩
      rw [denorm_row_ok_topic_id db p r hdr]
      subst htid
      exact search_entries_raw_topic_filter db embed dist lim cid tid0 q p hp
  · intro cid0 hcid htid hne r hr
    rw [hred fts] at hr
    cases hda : denorm_all db (search_entries_raw db embed dist lim cid tid q)
      with
    | error e =>
      rw [hda] at hr
      cases hr
    | ok rs =>
      rw [hda] at hr
      rcases denorm_all_ok_mem db _ rs hda r hr with ⟨p, hp, hdr⟩
      rw [denorm_row_ok_topic_id db p r hdr]
      subst hcid
      subst htid
      exact search_entries_raw_category_filter db embed dist lim cid0 q p
        hne hp

/-- Witness for C2 (amended): on the one-entry store, a `topic_id` filter
still records a full-text invocation and every returned row carries that
topic id. -/
theorem search_entries_filtered_uses_vector_path_witness :
    ((search_entries exDB2 true (fun _ => [(exEntry2, 8)]) (fun _ => [1])
        (fun _ _ => 0) "hello" 5 none (some "t1")).fulltextInvoked = true) ∧
    (∀ r ∈ (search_entries exDB2 true (fun _ => [(exEntry2, 8)])
        (fun _ => [1]) (fun _ _ => 0) "hello" 5 none
        (some "t1")).results, r.topic_id = "t1") := by
  have h := search_entries_filtered_uses_vector_path exDB2 true
    (fun _ => [(exEntry2, 8)]) (fun _ => [(exEntry2, 7)]) (fun _ => [1])
    (fun _ _ => 0) "hello" 5 none (some "t1") rfl
  exact ⟨h.1, h.2.2.1 "t1" rfl⟩

/-! ## Claim C5: "Unknown" placeholders for failed lookups -/

theorem denorm_row_error_of_dangling (db : DB) (p : Entry × Rat)
    (hne : db.topics ≠ [])
    (hdangling : ∀ t ∈ db.topics, t.id ≠ p.1.topic_id) :
    ∀ r, denorm_row db p ≠ .ok r := by
  intro r h
  have hlookup : iloc_lookup_topic db.topics p.1.topic_id = .error () := by
    unfold iloc_lookup_topic
    rw [if_neg (by simpa [List.isEmpty_iff] using hne)]
    rw [List.find?_eq_none.mpr (fun t ht => by simpa using hdangling t ht)]
  unfold denorm_row at h
  simp only [hlookup] at h
  cases h

/-- C5 counterexample: on a store whose topics table is nonempty, an entry
whose owning topic row is missing is not returned with "Unknown"
placeholders — the lookup raises `IndexError` and the whole search returns
the empty list, dropping the entry (and everything else). -/
theorem search_entries_drops_dangling_entry :
    search_entries_raw exDB5 (fun _ => [1]) (fun _ _ => 0) 5 none none "q"
      = [(exEntry5, 0)] ∧
    (search_entries exDB5 false (fun _ => []) (fun _ => [1]) (fun _ _ => 0)
      "q" 5 none none).results = [] := by
  refine ⟨rfl, rfl⟩

/-- C5 amended: the "Unknown" placeholders are substituted only when the
topics frame (and respectively the categories frame) is entirely empty — in
that case every raw row is returned, denormalized with "Unknown" names; when
the topics frame is nonempty and some raw row's owning topic is missing, the
lookup raises and `search_entries` returns `[]`, dropping all rows. -/
theorem search_entries_unknown_behavior (db : DB)
    (fts : String → List (Entry × Rat)) (embed : String → List Rat)
    (dist : List Rat → List Rat → Rat) (q : String) (lim : Nat) :
    (db.topics = [] →
      (search_entries db false fts embed dist q lim none none).results
        = (search_entries_raw db embed dist lim none none q).map
            (fun p => denorm_fields p none none) ∧
      ∀ r ∈ (search_entries db false fts embed dist q lim none none).results,
        r.topic_name = "Unknown" ∧ r.category_name = "Unknown") ∧
    (db.topics ≠ [] →
      (∃ p ∈ search_entries_raw db embed dist lim none none q,
        ∀ t ∈ db.topics, t.id ≠ p.1.topic_id) →
      (search_entries db false fts embed dist q lim none none).results
        = []) := by
  have hred :
      search_entries db false fts embed dist q lim none none =
        (match denorm_all db
            (search_entries_raw db embed dist lim none none q) with
         | .ok rs => { results := rs, fulltextInvoked := true }
         | .error _ => { results := [], fulltextInvoked := true }) := by
    unfold search_entries search_table_fulltext
    simp
  constructor
  · intro hts
    rw [hred, denorm_all_topics_nil db hts]
    refine ⟨rfl, ?_⟩
    intro r hr
    rcases List.mem_map.mp hr with ⟨p, _, rfl⟩
    exact ⟨rfl, rfl⟩
  · intro hne hdang
    rcases hdang with ⟨p, hp, hd⟩
    rw [hred, denorm_all_error_of_exists db _
      ⟨p, hp, denorm_row_error_of_dangling db p hne hd⟩]

/-- Witness for C5 (amended): with an empty topics table, the dangling entry
is returned once, with "Unknown" topic and category names. -/
theorem search_entries_unknown_behavior_witness :
    (search_entries exDB5b false (fun _ => []) (fun _ => [1]) (fun _ _ => 0)
      "q" 5 none none).results
      = (search_entries_raw exDB5b (fun _ => [1]) (fun _ _ => 0) 5 none none
          "q").map (fun p => denorm_fields p none none) ∧
    ∀ r ∈ (search_entries exDB5b false (fun _ => []) (fun _ => [1])
        (fun _ _ => 0) "q" 5 none none).results,
      r.topic_name = "Unknown" ∧ r.category_name = "Unknown" :=
  (search_entries_unknown_behavior exDB5b (fun _ => []) (fun _ => [1])
    (fun _ _ => 0) "q" 5).1 rfl

/-! ## Claim C1: the answer pipeline with a nonempty candidate set -/

/-- C1: whenever retrieval returns at least one candidate, `answer_question`
does not complete context assembly and generation: control reaches the bare
expression `s` at qa_processor.py line 210, the `NameError` it raises is
caught by the outer handler, and the error answer with an empty `sources[]`
list is returned — not one source per selected candidate. -/
theorem answer_question_error_on_candidates
    (entry_results : List SearchResult) (kbAvailable : Bool)
    (kb_results : List Doc) (relevance_threshold : Rat)
    (h : entry_results ≠ []) :
    answer_question entry_results kbAvailable kb_results relevance_threshold
      = { answer := "An error occurred while processing your question: name \x27s\x27 is not defined"
          sources := [] } := by
  have hproj : (project_entry_results entry_results).isEmpty = false := by
    cases entry_results with
    | nil => exact absurd rfl h
    | cons a as => rfl
  have hne2 : project_entry_results entry_results ≠ [] := by
    simpa using hproj
  simp only [answer_question, hproj, Bool.false_and, Bool.false_eq_true,
    if_false]
  by_cases hf : ((project_entry_results entry_results).filter
      (fun r => r.score.getD 1 < relevance_threshold)).isEmpty = true
  · rw [if_pos hf]
    rw [if_neg ?_]
    simp only [List.isEmpty_eq_true]
    exact take_ne_nil_of_ne_nil _ 2 (by decide) hne2
  · rw [if_neg hf]
    rw [if_neg ?_]
    exact hf

/-- Witness for C1: one retrieved candidate yields the `NameError` answer
with no sources. -/
theorem answer_question_error_on_candidates_witness :
    answer_question [exResult1] false [] 1
      = { answer := "An error occurred while processing your question: name \x27s\x27 is not defined"
          sources := [] } :=
  answer_question_error_on_candidates [exResult1] false [] 1 (by decide)

/-! ## Claim C3: relevance-filter fallback -/

/-- C3 counterexample: three candidates all failing the threshold make the
`answer_question_with_docs` fallback keep all three (it truncates the sorted
candidates at 5), not the claimed top 2. -/
theorem with_docs_fallback_keeps_three :
    List.length
      (answer_question_with_docs exDocs3 5 false (fun _ => .ok "") "q").sources
      = 3 := by
  rfl

/-- C3 amended: when every candidate has a score and filtering at
`relevanceThreshold` empties a nonempty candidate set,
`answer_question_with_docs` falls back to the top `min(5, n)` candidates by
ascending score — not the top 2 — and returns a result carrying one source
per selected candidate, hence nonempty sources rather than an empty answer.
(In `answer_question` the analogous fallback takes the first 2 results, but
that pipeline then fails at the stray `s` statement — see C1.) -/
theorem with_docs_threshold_fallback (docs : List Doc)
    (relevance_threshold : Rat) (ca : Bool)
    (gen : String → Except String String) (q : String)
    (hne : docs ≠ [])
    (hall : docs.all (fun d => d.score.isSome) = true)
    (hempty : ∀ d ∈ docs, relevance_threshold ≤ d.score.getD 2) :
    (answer_question_with_docs docs relevance_threshold ca gen q).sources =
      ((pySorted (fun d => d.score.getD 2) docs).take 5).map
        (fun d => { title := d.title, source := d.source, text := d.text,
                    relevance_score := d.score.getD 0 }) ∧
    (answer_question_with_docs docs relevance_threshold ca gen q).sources
      ≠ [] := by
  have hfil : docs.filter (fun d => d.score.getD 2 < relevance_threshold)
      = [] :=
    List.filter_eq_nil_iff.mpr (fun d hd => by
      simpa using not_lt.mpr (hempty d hd))
  have hsel : select_docs docs relevance_threshold =
      (pySorted (fun d => d.score.getD 2) docs).take 5 := by
    unfold select_docs
    rw [hall, if_pos rfl, hfil]
    simp
  have hd : docs.isEmpty = false := by
    cases docs with
    | nil => exact absurd rfl hne
    | cons a as => rfl
  simp only [answer_question_with_docs, hd, Bool.false_eq_true, if_false,
    hsel]
  refine ⟨by first | rfl | trivial, ?_⟩
  intro hc
  have hmap := List.map_eq_nil_iff.mp hc
  exact take_ne_nil_of_ne_nil _ 5 (by decide)
    (pySorted_ne_nil _ _ hne) hmap

/-- Witness for C3 (amended): at threshold 5 over the three scored docs, the
sources list is exactly the three candidates sorted by score. -/
theorem with_docs_threshold_fallback_witness :
    (answer_question_with_docs exDocs3 5 false
      (fun _ => .ok "ans") "q").sources ≠ [] :=
  (with_docs_threshold_fallback exDocs3 5 false (fun _ => .ok "ans") "q"
    (by decide) (by decide) (by decide)).2

end KA
